import Mathlib

/-!
Shallow embedding of `Adafruit_BluefruitLE/bluez_dbus/device.py` (class
`BluezDevice`): the connection state machine, the property-change handler,
the discovery polling loop, and the hardened property accessors.

The DBus transport is modelled by oracles: a property read is an
`Except DBusError v` (or a function `Nat → Except E V` giving the result of
the i-th read attempt), a latch wait is a `Bool` saying whether the latch
was set within the timeout, and wall-clock time in the discovery loop is a
function from poll index to elapsed seconds.  Side effects performed by the
calling thread (latch clears, bus requests, sleeps, log lines) are recorded
as explicit event traces.
-/

namespace BluefruitLE

/-- Module-level constant `_INTERFACE = 'org.bluez.Device1'`. -/
def _INTERFACE : String := "org.bluez.Device1"

/-- Module-level constant `DBUS_METHOD_ACCESS_TENTATIVE = 3`. -/
def DBUS_METHOD_ACCESS_TENTATIVE : Nat := 3

/-- Module-level constant `DBUS_METHOD_ACCESS_TIMEOUT = 1` (seconds). -/
def DBUS_METHOD_ACCESS_TIMEOUT : Nat := 1

/-- The DBus error name compared against in `advertised`/`advertised_data`. -/
def invalidArgsName : String := "org.freedesktop.DBus.Error.InvalidArgs"

/-- A `dbus.exceptions.DBusException`, identified by its DBus error name
(`ex.get_dbus_name()`). -/
structure DBusError where
  name : String
  deriving DecidableEq, Repr

/-- The two `threading.Event` latches of a `BluezDevice`:
`self._connected` and `self._disconnected`. -/
structure Latches where
  connected : Bool
  disconnected : Bool
  deriving DecidableEq, Repr

/-- Python dict lookup on an association list (used for `changed_props`). -/
def lookupProp (k : String) : List (String × Nat) → Option Nat
  | [] => none
  | (k₂, v) :: rest => if k₂ = k then some v else lookupProp k rest

/-- `BluezDevice._prop_changed(iface, changed_props, invalidated_props)`:
skips interfaces other than `_INTERFACE`; sets `self._connected` when
`changed_props['Connected'] == 1` and `self._disconnected` when
`changed_props['Connected'] == 0`.  DBus boolean values are modelled as the
naturals 1 (true) and 0 (false), matching Python's `== 1` / `== 0` tests. -/
def _prop_changed (iface : String) (changed_props : List (String × Nat))
    (s : Latches) : Latches :=
  if iface ≠ _INTERFACE then s
  else
    let s₁ := if lookupProp "Connected" changed_props = some 1 then
        { s with connected := true } else s
    if lookupProp "Connected" changed_props = some 0 then
      { s₁ with disconnected := true } else s₁

/-- Events performed by the calling thread inside `connect`/`disconnect`. -/
inductive DevEv where
  | clearConnected
  | clearDisconnected
  | connectRequest
  | disconnectRequest
  | logDisconnectError (e : DBusError)
  | waitConnected
  | waitDisconnected
  deriving DecidableEq, Repr

/-- Result of a `connect`/`disconnect` call: normal return, or the
`RuntimeError` raised on a timed-out wait. -/
inductive CallResult where
  | ok
  | connectTimeout
  | disconnectTimeout
  deriving DecidableEq, Repr

/-- `BluezDevice.connect(timeout_sec)`: clears `self._connected`, calls
`self._device.Connect()`, then waits on `self._connected`.  The oracle
`latchSet` tells whether `self._connected.wait(timeout_sec)` returned true
(the latch was set within the timeout); if not, a `RuntimeError`
("Exceeded timeout waiting to connect to device!") is raised. -/
def connect (latchSet : Bool) : List DevEv × CallResult :=
  ([DevEv.clearConnected, DevEv.connectRequest, DevEv.waitConnected],
   if latchSet then CallResult.ok else CallResult.connectTimeout)

/-- `BluezDevice.disconnect(timeout_sec)`: clears `self._disconnected`, calls
`self._device.Disconnect()`; if that raises a `DBusException` (`rejected`
is `some e`) the error is logged and the call returns normally without
waiting.  Otherwise it waits on `self._disconnected`; `latchSet` tells
whether the wait succeeded, else a `RuntimeError` is raised. -/
def disconnect (rejected : Option DBusError) (latchSet : Bool) :
    List DevEv × CallResult :=
  match rejected with
  | some e =>
    ([DevEv.clearDisconnected, DevEv.disconnectRequest,
      DevEv.logDisconnectError e], CallResult.ok)
  | none =>
    ([DevEv.clearDisconnected, DevEv.disconnectRequest, DevEv.waitDisconnected],
     if latchSet then CallResult.ok else CallResult.disconnectTimeout)

/-- Effect of one calling-thread event on the two latches: only the
`Event.clear()` calls modify them; bus requests, waits and log lines do not. -/
def applyEv (s : Latches) : DevEv → Latches
  | DevEv.clearConnected => { s with connected := false }
  | DevEv.clearDisconnected => { s with disconnected := false }
  | _ => s

/-- Effect of a trace of calling-thread events on the latches. -/
def applyTrace (s : Latches) : List DevEv → Latches
  | [] => s
  | e :: rest => applyTrace (applyEv s e) rest

/-- Events performed inside `_prop_get`: the i-th `self._props.Get` call and
the `time.sleep(DBUS_METHOD_ACCESS_TIMEOUT)` in the except branch. -/
inductive PropGetEv where
  | attempt (i : Nat)
  | sleepSec (sec : Nat)
  deriving DecidableEq, Repr

/-- The `for i in range(0, n)` loop of `_prop_get`, with `get i` the outcome
of the i-th `self._props.Get(_INTERFACE, name)` call and `last` the current
`last_exception`.  On success the value is returned at once; on a
`DBusException` the error is recorded, logged and a 1-second sleep runs,
then the next iteration is tried.  After the loop, `raise last_exception`
(the `Option` error side: `none` is the unreachable `raise None` when the
loop body never ran). -/
def _prop_get_loop {E V : Type} (get : Nat → Except E V) :
    Nat → Nat → Option E → List PropGetEv × Except (Option E) V
  | _, 0, last => ([], Except.error last)
  | i, n + 1, _ =>
    match get i with
    | Except.ok v => ([PropGetEv.attempt i], Except.ok v)
    | Except.error e =>
      let r := _prop_get_loop get (i + 1) n (some e)
      (PropGetEv.attempt i :: PropGetEv.sleepSec DBUS_METHOD_ACCESS_TIMEOUT :: r.1,
       r.2)

/-- `BluezDevice._prop_get(name)`: try the property read up to
`DBUS_METHOD_ACCESS_TENTATIVE` (= 3) times, sleeping
`DBUS_METHOD_ACCESS_TIMEOUT` (= 1) seconds after each failed attempt, and
raise the last exception if every attempt failed.  Used by the `id`,
`is_connected` and `_adapter` getters. -/
def _prop_get {E V : Type} (get : Nat → Except E V) :
    List PropGetEv × Except (Option E) V :=
  _prop_get_loop get 0 DBUS_METHOD_ACCESS_TENTATIVE none

/-- Outcome of a `rssi` property read: a returned value, or the
`AttributeError` that escapes when `self.backup_rssi` is evaluated in the
except handler without ever having been assigned. -/
inductive RssiOutcome where
  | value (v : Int)
  | attributeError
  deriving DecidableEq, Repr

/-- `BluezDevice.rssi`: on a successful `Get` the value is stored in
`self.backup_rssi` and returned; on any exception the handler returns
`self.backup_rssi`.  The cache is modelled as `Option Int`: `none` means
the instance attribute `backup_rssi` does not exist (it is never assigned
in `__init__`), in which case evaluating it in the except handler raises
`AttributeError`.  Returns the new cache state and the outcome. -/
def rssi (get : Except Unit Int) (backup_rssi : Option Int) :
    Option Int × RssiOutcome :=
  match get with
  | Except.ok v => (some v, RssiOutcome.value v)
  | Except.error _ =>
    match backup_rssi with
    | some v => (some v, RssiOutcome.value v)
    | none => (none, RssiOutcome.attributeError)

/-- A Python `uuid.UUID` value, built from the string form of a raw DBus
value (`uuid.UUID(str(x))`). -/
structure PyUUID where
  s : String
  deriving DecidableEq, Repr

/-- `uuid.UUID(str(x))` as an opaque injection of the raw string. -/
def uuidOf (s : String) : PyUUID := ⟨s⟩

/-- `BluezDevice.advertised`: `uuids = []`; try to read the `UUIDs`
property; a `DBusException` whose DBus name is not
`org.freedesktop.DBus.Error.InvalidArgs` is re-raised, an `InvalidArgs`
error is swallowed leaving `uuids = []`; finally each raw value is parsed
with `uuid.UUID(str(x))`. -/
def advertised (get : Except DBusError (List String)) :
    Except DBusError (List PyUUID) :=
  match get with
  | Except.ok uuids => Except.ok (uuids.map uuidOf)
  | Except.error ex =>
    if ex.name ≠ invalidArgsName then Except.error ex
    else Except.ok (List.map uuidOf [])

/-- Python dict lookup on the `ServiceData` mapping
(stringified UUID key ↦ list of byte values). -/
def lookupData (k : String) : List (String × List Nat) → Option (List Nat)
  | [] => none
  | (k₂, v) :: rest => if k₂ = k then some v else lookupData k rest

/-- The bytestring built by `advertised_data` from the raw dbus data:
`bytearray = [bytes([v]) for v in dbus_data]` followed by
`bytestring = b''` and `for b in bytearray: bytestring += b`. -/
def buildBytestring (dbus_data : List Nat) : List Nat :=
  (dbus_data.map (fun v => [v])).foldl (fun acc b => acc ++ b) []

/-- Outcome of `advertised_data`: a returned bytestring, the `return None`
at the end of the function, an uncaught `KeyError` from the dict lookup,
or a re-raised `DBusException`. -/
inductive AdvDataOutcome where
  | bytestring (bs : List Nat)
  | noneValue
  | keyError
  | raised (e : DBusError)
  deriving DecidableEq, Repr

/-- `BluezDevice.advertised_data(service_uuid)`: reads the `ServiceData`
property, indexes it with `str(service_uuid)` (a missing key raises
`KeyError`, which the `except dbus.exceptions.DBusException` clause does
not catch), and returns the concatenation of the single-byte chunks.  A
`DBusException` other than `InvalidArgs` is re-raised; `InvalidArgs` falls
through to `return None`. -/
def advertised_data (get : Except DBusError (List (String × List Nat)))
    (service_uuid : String) : AdvDataOutcome :=
  match get with
  | Except.ok all_service_uuids =>
    match lookupData service_uuid all_service_uuids with
    | some dbus_data => AdvDataOutcome.bytestring (buildBytestring dbus_data)
    | none => AdvDataOutcome.keyError
  | Except.error ex =>
    if ex.name ≠ invalidArgsName then AdvDataOutcome.raised ex
    else AdvDataOutcome.noneValue

/-- Python's `set(actual) >= set(expected)` on UUID lists. -/
def supersetCheck (expected actual : List PyUUID) : Bool :=
  expected.all fun u => actual.contains u

/-- The `while True` loop of `discover`, with `sat k` the superset test of
poll iteration k, `elapsed k` the value of `time.time() - start` at the
timeout check of iteration k, and explicit fuel for termination.  Returns
the number of `time.sleep(1)` calls performed and the result (`none` only
when the fuel runs out, which never happens in the runs the theorems
describe). -/
def discover_loop (sat : Nat → Bool) (elapsed : Nat → Nat) (timeout_sec : Nat) :
    Nat → Nat → Nat × Option Bool
  | _, 0 => (0, none)
  | k, fuel + 1 =>
    if sat k then (0, some true)
    else if timeout_sec ≤ elapsed k then (0, some false)
    else
      let r := discover_loop sat elapsed timeout_sec (k + 1) fuel
      (r.1 + 1, r.2)

/-- `BluezDevice.discover(service_uuids, char_uuids, timeout_sec)`: polls
until the advertised service UUIDs (`services k` at iteration k) are a
superset of `service_uuids` and the discovered characteristic UUIDs
(`chars k`) a superset of `char_uuids`, returning `true`; returns `false`
when `time.time() - start >= timeout_sec` before that, sleeping 1 second
between iterations. -/
def discover (services chars : Nat → List PyUUID)
    (service_uuids char_uuids : List PyUUID)
    (elapsed : Nat → Nat) (timeout_sec fuel : Nat) : Nat × Option Bool :=
  discover_loop
    (fun k => supersetCheck service_uuids (services k)
      && supersetCheck char_uuids (chars k))
    elapsed timeout_sec 0 fuel

/-! ## Theorems -/

/-- C5: `connect(timeout)` first clears the connected latch, then issues the
connect request (the clear strictly precedes the request in the trace), then
blocks on the latch; the call raises the connect-timeout error exactly when
the latch is not set within the timeout, and returns normally otherwise. -/
theorem connect_spec (latchSet : Bool) :
    (connect latchSet).1
      = [DevEv.clearConnected, DevEv.connectRequest, DevEv.waitConnected]
    ∧ (connect latchSet).2
      = (if latchSet then CallResult.ok else CallResult.connectTimeout) := by
  cases latchSet <;> exact ⟨rfl, rfl⟩

/-- C6: `disconnect(timeout)` with a synchronously rejected bus request logs
the failure and returns normally without waiting; otherwise it blocks on the
disconnected latch and raises the disconnect-timeout error exactly when the
latch is not set within the timeout. -/
theorem disconnect_spec (e : DBusError) (latchSet : Bool) :
    disconnect (some e) latchSet
      = ([DevEv.clearDisconnected, DevEv.disconnectRequest,
          DevEv.logDisconnectError e], CallResult.ok)
    ∧ disconnect none latchSet
      = ([DevEv.clearDisconnected, DevEv.disconnectRequest,
          DevEv.waitDisconnected],
         if latchSet then CallResult.ok else CallResult.disconnectTimeout) := by
  cases latchSet <;> exact ⟨rfl, rfl⟩

/-- C10: the calling thread of `connect` leaves the disconnected latch
unchanged, and the calling thread of `disconnect` leaves the connected latch
unchanged, whatever the wait outcome and whether or not the disconnect
request was rejected. -/
theorem connect_disconnect_frame (latchSet : Bool) (rejected : Option DBusError)
    (s : Latches) :
    (applyTrace s (connect latchSet).1).disconnected = s.disconnected
    ∧ (applyTrace s (disconnect rejected latchSet).1).connected = s.connected := by
  cases rejected <;>
    simp [connect, disconnect, applyTrace, applyEv]

/-- C9: `_prop_changed` ignores interfaces other than the device interface;
on the device interface it sets the connected latch when the change set maps
`Connected` to true (1) and leaves the disconnected latch unchanged, sets the
disconnected latch when it maps `Connected` to false (0) and leaves the
connected latch unchanged, and leaves both latches unchanged when `Connected`
is absent from the change set. -/
theorem prop_changed_spec (iface : String) (cp : List (String × Nat))
    (s : Latches) :
    (iface ≠ _INTERFACE → _prop_changed iface cp s = s)
    ∧ (lookupProp "Connected" cp = some 1 →
        (_prop_changed _INTERFACE cp s).connected = true
        ∧ (_prop_changed _INTERFACE cp s).disconnected = s.disconnected)
    ∧ (lookupProp "Connected" cp = some 0 →
        (_prop_changed _INTERFACE cp s).disconnected = true
        ∧ (_prop_changed _INTERFACE cp s).connected = s.connected)
    ∧ (lookupProp "Connected" cp = none → _prop_changed iface cp s = s) := by
  refine ⟨fun h => by simp [_prop_changed, h], fun h => ?_, fun h => ?_,
    fun h => ?_⟩
  · simp [_prop_changed, h]
  · simp [_prop_changed, h]
  · by_cases hif : iface = _INTERFACE <;> simp [_prop_changed, hif, h]

/-- Witness for `prop_changed_spec` at concrete inputs: a foreign interface
leaves the latches alone, and a `Connected = 1` change on the device
interface sets the connected latch. -/
theorem prop_changed_spec_witness :
    _prop_changed "org.bluez.Adapter1" [("Connected", 1)] ⟨false, false⟩
      = ⟨false, false⟩
    ∧ (_prop_changed _INTERFACE [("Connected", 1)] ⟨false, false⟩).connected
      = true :=
  ⟨(prop_changed_spec "org.bluez.Adapter1" [("Connected", 1)] ⟨false, false⟩).1
      (by decide),
   ((prop_changed_spec _INTERFACE [("Connected", 1)] ⟨false, false⟩).2.1
      rfl).1⟩

/-- C1 (code bug): `rssi` caches a successful read and falls back to the
cache on failure, but on a device whose reads have all failed the cache
attribute was never assigned, so the except handler's `return
self.backup_rssi` raises `AttributeError` instead of returning an absent
value. -/
theorem rssi_uninitialized_cache_raises :
    rssi (Except.error ()) none = (none, RssiOutcome.attributeError)
    ∧ rssi (Except.ok 5) none = (some 5, RssiOutcome.value 5)
    ∧ rssi (Except.error ()) (some 5) = (some 5, RssiOutcome.value 5) := by
  exact ⟨rfl, rfl, rfl⟩

/-- C4: `advertised` re-raises any bus error other than `InvalidArgs`,
returns the empty list on an `InvalidArgs` (property missing) error, and on
success parses each raw value into a UUID value. -/
theorem advertised_spec (vs : List String) (e : DBusError) :
    advertised (Except.ok vs) = Except.ok (vs.map uuidOf)
    ∧ advertised (Except.error ⟨invalidArgsName⟩) = Except.ok []
    ∧ (e.name ≠ invalidArgsName →
        advertised (Except.error e) = Except.error e) := by
  refine ⟨rfl, by simp [advertised], fun h => by simp [advertised, h]⟩

/-- Witness for `advertised_spec`: a `NoReply` bus error is re-raised. -/
theorem advertised_spec_witness :
    advertised (Except.error ⟨"org.freedesktop.DBus.Error.NoReply"⟩)
      = Except.error ⟨"org.freedesktop.DBus.Error.NoReply"⟩ :=
  (advertised_spec [] ⟨"org.freedesktop.DBus.Error.NoReply"⟩).2.2 (by decide)

/-- A property-read backend whose every attempt fails with error code 7. -/
def constFailGet : Nat → Except Nat Nat := fun _ => Except.error 7

/-- C2 counterexample: on a backend whose three read attempts all fail, the
`_prop_get` trace contains a 1-second sleep after the final (third) attempt
as well — it is not the claimed attempt/sleep/attempt/sleep/attempt shape
with no sleep after the last attempt. -/
theorem prop_get_sleep_after_last_counterexample :
    (_prop_get constFailGet).1
      = [PropGetEv.attempt 0, PropGetEv.sleepSec 1, PropGetEv.attempt 1,
         PropGetEv.sleepSec 1, PropGetEv.attempt 2, PropGetEv.sleepSec 1]
    ∧ (_prop_get constFailGet).1
      ≠ [PropGetEv.attempt 0, PropGetEv.sleepSec 1, PropGetEv.attempt 1,
         PropGetEv.sleepSec 1, PropGetEv.attempt 2] := by
  constructor
  · rfl
  · intro h
    exact absurd h (by decide)

/-- C2 amended: on persistent failure `_prop_get` makes exactly 3 read
attempts, sleeps 1 second after every failed attempt — including the final
one — and then raises exactly the error of the last attempt; if some attempt
succeeds, its value is returned immediately with no further attempts and no
sleep after it. -/
theorem prop_get_retry_spec {E V : Type} (get : Nat → Except E V) :
    (∀ e₀ e₁ e₂ : E, get 0 = Except.error e₀ → get 1 = Except.error e₁ →
      get 2 = Except.error e₂ →
      _prop_get get
        = ([PropGetEv.attempt 0, PropGetEv.sleepSec 1, PropGetEv.attempt 1,
            PropGetEv.sleepSec 1, PropGetEv.attempt 2, PropGetEv.sleepSec 1],
           Except.error (some e₂)))
    ∧ (∀ v : V, get 0 = Except.ok v →
        _prop_get get = ([PropGetEv.attempt 0], Except.ok v))
    ∧ (∀ (e₀ : E) (v : V), get 0 = Except.error e₀ → get 1 = Except.ok v →
        _prop_get get
          = ([PropGetEv.attempt 0, PropGetEv.sleepSec 1, PropGetEv.attempt 1],
             Except.ok v))
    ∧ (∀ (e₀ e₁ : E) (v : V), get 0 = Except.error e₀ →
        get 1 = Except.error e₁ → get 2 = Except.ok v →
        _prop_get get
          = ([PropGetEv.attempt 0, PropGetEv.sleepSec 1, PropGetEv.attempt 1,
              PropGetEv.sleepSec 1, PropGetEv.attempt 2],
             Except.ok v)) := by
  refine ⟨fun e₀ e₁ e₂ h₀ h₁ h₂ => ?_, fun v h₀ => ?_,
    fun e₀ v h₀ h₁ => ?_, fun e₀ e₁ v h₀ h₁ h₂ => ?_⟩
  · simp [_prop_get, _prop_get_loop, DBUS_METHOD_ACCESS_TENTATIVE,
      DBUS_METHOD_ACCESS_TIMEOUT, h₀, h₁, h₂]
  · simp [_prop_get, _prop_get_loop, DBUS_METHOD_ACCESS_TENTATIVE,
      DBUS_METHOD_ACCESS_TIMEOUT, h₀]
  · simp [_prop_get, _prop_get_loop, DBUS_METHOD_ACCESS_TENTATIVE,
      DBUS_METHOD_ACCESS_TIMEOUT, h₀, h₁]
  · simp [_prop_get, _prop_get_loop, DBUS_METHOD_ACCESS_TENTATIVE,
      DBUS_METHOD_ACCESS_TIMEOUT, h₀, h₁, h₂]

/-- Witness for `prop_get_retry_spec`: a backend failing twice then
succeeding returns the third attempt's value after two sleeps. -/
theorem prop_get_retry_spec_witness :
    _prop_get (fun i => if i < 2 then Except.error i else Except.ok 42)
      = ([PropGetEv.attempt 0, PropGetEv.sleepSec 1, PropGetEv.attempt 1,
          PropGetEv.sleepSec 1, PropGetEv.attempt 2],
         Except.ok 42) :=
  (prop_get_retry_spec
    (fun i => if i < 2 then Except.error i else Except.ok 42)).2.2.2
    0 1 42 rfl rfl rfl

/-- C3 counterexample: when the `ServiceData` read succeeds but the map has
no entry for the given key, `advertised_data` raises an uncaught `KeyError`
rather than returning the absent value `None`. -/
theorem advertised_data_missing_key_counterexample :
    advertised_data
        (Except.ok [("0000180d-0000-1000-8000-00805f9b34fb", [1, 2])])
        "0000180f-0000-1000-8000-00805f9b34fb"
      = AdvDataOutcome.keyError
    ∧ advertised_data
        (Except.ok [("0000180d-0000-1000-8000-00805f9b34fb", [1, 2])])
        "0000180f-0000-1000-8000-00805f9b34fb"
      ≠ AdvDataOutcome.noneValue := by
  constructor
  · rfl
  · intro h
    exact absurd h (by decide)

/-- The concatenation of the single-byte chunks `bytes([v])` built by
`advertised_data` is the raw byte list itself. -/
theorem buildBytestring_eq (l : List Nat) : buildBytestring l = l := by
  have key : ∀ (l : List Nat) (acc : List Nat),
      (l.map (fun v => [v])).foldl (fun acc b => acc ++ b) acc = acc ++ l := by
    intro l
    induction l with
    | nil => intro acc; simp
    | cons x xs ih =>
      intro acc
      simp [ih, List.append_assoc]
  simpa using key l []

/-- C3 amended: when the `ServiceData` read succeeds but the map has no
entry for the stringified service UUID, `advertised_data` raises an uncaught
key-lookup error (it does not return an absent value); when the entry is
present, it returns the concatenation of its raw byte values as a single
byte sequence. -/
theorem advertised_data_lookup_spec (m : List (String × List Nat))
    (k : String) (data : List Nat) :
    (lookupData k m = none →
      advertised_data (Except.ok m) k = AdvDataOutcome.keyError)
    ∧ (lookupData k m = some data →
      advertised_data (Except.ok m) k = AdvDataOutcome.bytestring data) := by
  constructor
  · intro h
    simp [advertised_data, h]
  · intro h
    simp [advertised_data, h, buildBytestring_eq]

/-- Witness for `advertised_data_lookup_spec`: a present key returns its
bytes, a missing key raises the lookup error. -/
theorem advertised_data_lookup_spec_witness :
    advertised_data (Except.ok [("aaaa", [3, 4, 5])]) "aaaa"
      = AdvDataOutcome.bytestring [3, 4, 5]
    ∧ advertised_data (Except.ok [("aaaa", [3, 4, 5])]) "bbbb"
      = AdvDataOutcome.keyError :=
  ⟨(advertised_data_lookup_spec [("aaaa", [3, 4, 5])] "aaaa" [3, 4, 5]).2
      (by decide),
   (advertised_data_lookup_spec [("aaaa", [3, 4, 5])] "bbbb" [3, 4, 5]).1
      (by decide)⟩

/-- Skipping lemma for the discovery loop: iterations whose superset test is
false and whose elapsed time is below the timeout neither return nor change
the final result, so the loop's result from index `i` equals its result from
index `i + d` (with `d` units of fuel consumed). -/
theorem discover_loop_skip (sat : Nat → Bool) (elapsed : Nat → Nat) (t : Nat) :
    ∀ d i fuel : Nat, d ≤ fuel →
      (∀ j, i ≤ j → j < i + d → sat j = false ∧ elapsed j < t) →
      (discover_loop sat elapsed t i fuel).2
        = (discover_loop sat elapsed t (i + d) (fuel - d)).2 := by
  intro d
  induction d with
  | zero =>
    intro i fuel _ _
    simp
  | succ d ih =>
    intro i fuel hd hpre
    obtain ⟨f, rfl⟩ : ∃ f, fuel = f + 1 := ⟨fuel - 1, by omega⟩
    have h₀ := hpre i (le_refl i) (by omega)
    calc (discover_loop sat elapsed t i (f + 1)).2
        = (discover_loop sat elapsed t (i + 1) f).2 := by
          simp [discover_loop, h₀.1, Nat.not_le.mpr h₀.2]
      _ = (discover_loop sat elapsed t (i + 1 + d) (f - d)).2 :=
          ih (i + 1) f (by omega)
            (fun j hj₁ hj₂ => hpre j (by omega) (by omega))
      _ = (discover_loop sat elapsed t (i + (d + 1)) (f + 1 - (d + 1))).2 := by
          have e₁ : i + 1 + d = i + (d + 1) := by omega
          have e₂ : f - d = f + 1 - (d + 1) := by omega
          rw [e₁, e₂]

/-- The discovery loop returns `some true` when the first deciding iteration
satisfies the superset test, and `some false` when it does not and its
elapsed time has reached the timeout. -/
theorem discover_loop_first (sat : Nat → Bool) (elapsed : Nat → Nat)
    (t k fuel : Nat) (hfuel : k < fuel)
    (hprior : ∀ j, j < k → sat j = false ∧ elapsed j < t) :
    (sat k = true → (discover_loop sat elapsed t 0 fuel).2 = some true)
    ∧ (sat k = false → t ≤ elapsed k →
        (discover_loop sat elapsed t 0 fuel).2 = some false) := by
  have hskip := discover_loop_skip sat elapsed t k 0 fuel (le_of_lt hfuel)
    (fun j hj₁ hj₂ => hprior j (by omega))
  obtain ⟨m, hm⟩ : ∃ m, fuel - k = m + 1 := ⟨fuel - k - 1, by omega⟩
  rw [hm] at hskip
  constructor
  · intro hk
    rw [hskip]
    simp [discover_loop, hk]
  · intro hk hel
    rw [hskip]
    simp [discover_loop, hk, hel]

/-- C7: `discover(expected_service_uuids, expected_characteristic_uuids,
timeout)` returns true as soon as a poll iteration finds the advertised
service UUIDs a superset of the expected services and the discovered
characteristic UUIDs a superset of the expected characteristics; when
instead that iteration fails the superset test with elapsed time at or past
the timeout, it returns false (not an error). -/
theorem discover_spec (services chars : Nat → List PyUUID)
    (expS expC : List PyUUID) (elapsed : Nat → Nat) (t k fuel : Nat)
    (hfuel : k < fuel)
    (hprior : ∀ j, j < k →
      (supersetCheck expS (services j) && supersetCheck expC (chars j)) = false
      ∧ elapsed j < t) :
    ((supersetCheck expS (services k) && supersetCheck expC (chars k)) = true →
      (discover services chars expS expC elapsed t fuel).2 = some true)
    ∧ ((supersetCheck expS (services k) && supersetCheck expC (chars k)) = false →
      t ≤ elapsed k →
      (discover services chars expS expC elapsed t fuel).2 = some false) :=
  discover_loop_first
    (fun j => supersetCheck expS (services j) && supersetCheck expC (chars j))
    elapsed t k fuel hfuel hprior

/-- Witness for `discover_spec`: a device already advertising the single
expected service (and no expected characteristics) makes `discover` return
true at the first poll. -/
theorem discover_spec_witness :
    (discover (fun _ => [uuidOf "0000180d"]) (fun _ => [])
      [uuidOf "0000180d"] [] (fun _ => 0) 5 1).2 = some true :=
  (discover_spec (fun _ => [uuidOf "0000180d"]) (fun _ => [])
    [uuidOf "0000180d"] [] (fun _ => 0) 5 0 1 (by decide)
    (fun j hj => absurd hj (Nat.not_lt_zero j))).1 (by decide)

/-- C8: with both expectation sets empty, `discover` returns true on the
first iteration, with zero sleeps and a result independent of the timeout
value. -/
theorem discover_empty_spec (services chars : Nat → List PyUUID)
    (elapsed : Nat → Nat) (t fuel : Nat) :
    discover services chars [] [] elapsed t (fuel + 1) = (0, some true) := by
  simp [discover, discover_loop, supersetCheck]

end BluefruitLE
